import Mathlib

/-!
Verification development for the BackdropEngine core: the frame compositor
(`src/utils/compositor.ts`), the global beauty filter engine
(`src/utils/beauty-filters.ts`), the facial beauty filter engine
(`faceFilters.ts`, shipped unnamed) and the background preloader
(`backgrounds.ts`, shipped unnamed).

Modelling conventions:
- Canvas surfaces are pixel grids of symbolic pixels: every `Pix` constructor
  records the drawing operation that produced the pixel, with browser
  rasterization primitives (blur kernels, Porter-Duff blend formulas, radial
  gradients) left uninterpreted. The compositing structure is exactly the one
  the source builds.
- Numbers carried by filters (intensities, radii) are rationals.
- Asynchronous image loading is abstracted as a pure loader function supplied
  by the environment; `Promise.all` over `options.map` preserves input order
  and never rejects because every entry settles, which the list `map` mirrors.
- The only exceptions the source can raise come from `getContext` returning
  null; those environment outcomes are explicit boolean flags.
-/

namespace Backdrop

/-- JavaScript `a || b` on nonnegative integers: `0` is falsy. -/
def jsOrNat (a b : Nat) : Nat := if a = 0 then b else a

/-- JavaScript `a || b` where `a` is an optional number: `undefined` and `0`
are falsy. Models `options.beautyFilter.intensity || 0.5`. -/
def jsOrRat (a : Option Rat) (b : Rat) : Rat :=
  match a with
  | Option.none => b
  | Option.some q => if q = 0 then b else q

/-- JavaScript truthiness of an optional string: `undefined` and the empty
string are falsy. Models the `option.src` check in `preloadBackgrounds`. -/
def truthyStr : Option String → Bool
  | Option.none => false
  | Option.some s => s ≠ ""

/-! ## Background preloader (`backgrounds.ts`) -/

/-- Background kinds. The source declares `'blur' | 'image'`; the demos and
the hook additionally pass `none` entries, which the code routes through the
same "no preloading needed" branch as `blur`. -/
inductive BackgroundType
  | none
  | blur
  | image
deriving DecidableEq, Repr

/-- A declarative background choice (`BackgroundOption` in the source). -/
structure BackgroundOption where
  label : String
  type : BackgroundType
  src : Option String := Option.none
deriving DecidableEq, Repr

/-- A loaded `HTMLImageElement`, identified by the URL it was loaded from. -/
structure HtmlImage where
  src : String
deriving DecidableEq, Repr

/-- Per-entry preload outcome (`LoadedBackground` in the source). -/
structure LoadedBackground where
  option : BackgroundOption
  image : Option HtmlImage := Option.none
  isReady : Bool
  error : Option String := Option.none
deriving DecidableEq, Repr

/-- The `loadImage` helper: resolves with the image or rejects with an error;
the asynchronous outcome is the supplied loader applied to the URL. -/
def loadImage (loader : String → Except String HtmlImage) (src : String) :
    Except String HtmlImage :=
  loader src

/-- One entry of the `options.map` callback inside `preloadBackgrounds`:
an `image` entry with a truthy `src` awaits the load inside try/catch and
reports success or failure; every other entry is immediately ready. -/
def preloadOne (loader : String → Except String HtmlImage)
    (option : BackgroundOption) : LoadedBackground :=
  if option.type = BackgroundType.image ∧ truthyStr option.src then
    match loadImage loader (option.src.getD "") with
    | Except.ok img => { option := option, image := Option.some img, isReady := true }
    | Except.error err => { option := option, isReady := false, error := Option.some err }
  else
    { option := option, isReady := true }

/-- `preloadBackgrounds`: `Promise.all(options.map ...)`, order preserving,
each entry settling independently. -/
def preloadBackgrounds (loader : String → Except String HtmlImage)
    (options : List BackgroundOption) : List LoadedBackground :=
  options.map (preloadOne loader)

/-! ## Symbolic pixels and surfaces -/

/-- Blend modes (`globalCompositeOperation` values) the source sets. -/
inductive BlendMode
  | sourceOver
  | destinationIn
  | softLight
  | overlay
  | lighter
deriving DecidableEq, Repr

/-- The `ctx.filter` strings the source builds. -/
inductive CssFilter
  | blurF (radius : Rat)
  | brightnessContrast (brightness contrast : Rat)
  | brightnessOnly (brightness : Rat)
  | saturateHue (saturate hueRotate : Rat)
deriving DecidableEq, Repr

/-- The two radial gradients painted by the global filter engine. -/
inductive GradientKind
  | whiteHighlight
  | warmGlow
deriving DecidableEq, Repr

/-- Symbolic pixel values: each constructor records the drawing operation that
produced the pixel. Coordinates are the user-space sample position of a
full-canvas stretch of the given source. -/
inductive Pix
  | uninit
  | transparent
  | framePix (x y : Nat)
  | maskPix (x y : Nat)
  | bgImagePix (x y : Nat)
  | black
  | blurredFrame (radius : Rat) (x y : Nat)
  | over (src dst : Pix)
  | destIn (maskP dst : Pix)
  | blend (mode : BlendMode) (alpha : Rat) (src dst : Pix)
  | filtered (f : CssFilter) (p : Pix)
  | blurOf (radius : Rat) (p : Pix)
  | tint (color : String) (alpha : Rat) (p : Pix)
  | gradientPix (kind : GradientKind) (alpha : Rat) (x y : Nat)
deriving DecidableEq, Repr

/-- A canvas surface: dimensions plus per-pixel symbolic content. -/
structure Surface where
  width : Nat
  height : Nat
  pix : Nat → Nat → Pix

/-- Overwrite every in-bounds pixel as a function of the old pixel. The
scratch-canvas round trips in the source (copy out, filter, clear, draw back)
are pixel-identity copies and are folded into the single rewrite. -/
def Surface.mapPix (s : Surface) (f : Nat → Nat → Pix → Pix) : Surface :=
  { s with pix := fun x y =>
      if x < s.width ∧ y < s.height then f x y (s.pix x y) else s.pix x y }

/-- Overwrite every in-bounds pixel inside a clip region. -/
def Surface.mapRegion (s : Surface) (region : Nat → Nat → Bool) (f : Pix → Pix) : Surface :=
  { s with pix := fun x y =>
      if (x < s.width ∧ y < s.height) ∧ region x y then f (s.pix x y) else s.pix x y }

/-- Integer pixel (x, y) lies in the closed disc of radius r around (cx, cy). -/
def inCircle (cx cy r : Rat) (x y : Nat) : Bool :=
  ((x : Rat) - cx) ^ 2 + ((y : Rat) - cy) ^ 2 ≤ r ^ 2

/-- Integer pixel (x, y) lies in the closed ellipse with the given center and
radii (degenerate radii give the empty region). -/
def inEllipse (cx cy rx ry : Rat) (x y : Nat) : Bool :=
  if rx = 0 ∨ ry = 0 then false
  else
    ((x : Rat) - cx) ^ 2 * ry ^ 2 + ((y : Rat) - cy) ^ 2 * rx ^ 2 ≤ rx ^ 2 * ry ^ 2

/-! ## Global beauty filter engine (`beauty-filters.ts`) -/

/-- Global filter kinds (`BeautyFilterType` from `types/beauty-filters.ts`). -/
inductive GlobalBeautyType
  | none
  | skinSmoothing
  | brightnessContrast
  | highlight
  | softGlow
  | sharpen
  | colorBoost
deriving DecidableEq, Repr

/-- Descriptor passed to `applyBeautyFilter` (`BeautyFilterOptions`). -/
structure BeautyFilterOptions where
  type : GlobalBeautyType
  intensity : Option Rat := Option.none
deriving DecidableEq, Repr

/-- Constant `MAX_BLUR_RADIUS` from the source. -/
def MAX_BLUR_RADIUS : Rat := 20

/-- Constant `MAX_BLEND_ALPHA` from the source. -/
def MAX_BLEND_ALPHA : Rat := 7 / 10

/-- `applySkinSmoothing`: blur a copy at radius `intensity * 20` (capped),
soft-light blend it back at alpha `intensity * 0.7`. -/
def applySkinSmoothing (canvas : Surface) (intensity : Rat) : Surface :=
  let blurRadius := max 0 (min MAX_BLUR_RADIUS (intensity * MAX_BLUR_RADIUS))
  if blurRadius ≤ 0 then canvas
  else
    let alpha := intensity * MAX_BLEND_ALPHA
    canvas.mapPix (fun _ _ p =>
      Pix.blend BlendMode.softLight alpha (Pix.blurOf blurRadius p) p)

/-- `applyBrightnessContrast`: draw a filtered copy back over the surface. -/
def applyBrightnessContrast (canvas : Surface) (intensity : Rat) : Surface :=
  let brightness := 1 + intensity * (2 / 10)
  let contrast := 1 + intensity * (3 / 10)
  canvas.mapPix (fun _ _ p =>
    Pix.filtered (CssFilter.brightnessContrast brightness contrast) p)

/-- `applyHighlight`: fill a white radial gradient (alpha `0.1 * intensity` at
the center) over the whole surface with normal compositing. -/
def applyHighlight (canvas : Surface) (intensity : Rat) : Surface :=
  canvas.mapPix (fun x y p =>
    Pix.over (Pix.gradientPix GradientKind.whiteHighlight (intensity / 10) x y) p)

/-- `applySoftGlow`: fill a warm radial gradient with the `lighter` composite
operation at global alpha `intensity * 0.15`. -/
def applySoftGlow (canvas : Surface) (intensity : Rat) : Surface :=
  canvas.mapPix (fun x y p =>
    Pix.blend BlendMode.lighter (intensity * (15 / 100))
      (Pix.gradientPix GradientKind.warmGlow 1 x y) p)

/-- `applySharpen`: overlay-blend a slightly blurred copy back at alpha
`intensity * 0.3`. -/
def applySharpen (canvas : Surface) (intensity : Rat) : Surface :=
  canvas.mapPix (fun _ _ p =>
    Pix.blend BlendMode.overlay (intensity * (3 / 10))
      (Pix.blurOf (1 / 2 + intensity * (3 / 2)) p) p)

/-- `applyColorBoost`: draw a saturate/hue-rotate filtered copy back. -/
def applyColorBoost (canvas : Surface) (intensity : Rat) : Surface :=
  let hueShift : Rat := if (6 / 10 : Rat) < intensity then -2 else 0
  canvas.mapPix (fun _ _ p =>
    Pix.filtered (CssFilter.saturateHue (1 + intensity * (5 / 10)) hueShift) p)

/-- JavaScript falsiness of the optional intensity (`!options.intensity`):
`undefined` and `0` are falsy. -/
def intensityFalsy : Option Rat → Bool
  | Option.none => true
  | Option.some q => q = 0

/-- `applyBeautyFilter(canvas, options)`: no-op guard first, then the
`getContext` throw, then dispatch on the filter kind. `ctxOk` is whether
`canvas.getContext` succeeds in the environment. -/
def applyBeautyFilter (ctxOk : Bool) (canvas : Surface)
    (options : BeautyFilterOptions) : Except String Surface :=
  if options.type = GlobalBeautyType.none ∨ intensityFalsy options.intensity
      ∨ options.intensity.getD 0 ≤ 0 then
    Except.ok canvas
  else if !ctxOk then
    Except.error "No 2D context available on canvas"
  else
    let intensity := options.intensity.getD 0
    Except.ok (match options.type with
      | GlobalBeautyType.skinSmoothing => applySkinSmoothing canvas intensity
      | GlobalBeautyType.brightnessContrast => applyBrightnessContrast canvas intensity
      | GlobalBeautyType.highlight => applyHighlight canvas intensity
      | GlobalBeautyType.softGlow => applySoftGlow canvas intensity
      | GlobalBeautyType.sharpen => applySharpen canvas intensity
      | GlobalBeautyType.colorBoost => applyColorBoost canvas intensity
      | GlobalBeautyType.none => canvas)

/-! ## Facial beauty filter engine (`faceFilters.ts`, `BeautyFilterRenderer`) -/

/-- Face bounding box in frame pixel space. -/
structure BoundingBox where
  x : Rat
  y : Rat
  width : Rat
  height : Rat
deriving DecidableEq, Repr

/-- One face detection (`JeelizFaceDetection`). Landmarks are 2D points. -/
structure JeelizFaceDetection where
  state : Nat
  rotation : Rat × Rat × Rat := (0, 0, 0)
  mouth : Rat := 0
  landmarks : List (Rat × Rat) := []
  boundingBox : BoundingBox
  confidence : Option Rat := Option.none
deriving DecidableEq, Repr

/-- Facial filter kinds (`BeautyFilterType` as declared in `faceFilters.ts`;
renamed here because `beauty-filters.ts` declares a distinct type of the same
name for the global engine). -/
inductive FacialFilterType
  | skinSmoothing
  | eyeEnhancement
  | lipEnhancement
  | faceContouring
  | blush
  | brightening
deriving DecidableEq, Repr

/-- Kind-specific options of a facial filter. -/
structure FacialFilterOptions where
  blurRadius : Option Rat := Option.none
  brightness : Option Rat := Option.none
  contrast : Option Rat := Option.none
  color : Option String := Option.none
  slimFactor : Option Rat := Option.none
  blushColor : Option String := Option.none
  blushOpacity : Option Rat := Option.none
deriving DecidableEq, Repr

/-- A facial beauty filter descriptor (`BeautyFilter` in `faceFilters.ts`). -/
structure FacialBeautyFilter where
  id : String
  type : FacialFilterType
  intensity : Option Rat := Option.none
  enabled : Option Bool := Option.none
  options : FacialFilterOptions := {}
deriving DecidableEq, Repr

namespace BeautyFilterRenderer

/-- `applySkinSmoothing`: blur inside the elliptical clip over the bounding
box at radius `(options.blurRadius ?? 3) * intensity`. -/
def applySkinSmoothing (canvas : Surface) (detection : JeelizFaceDetection)
    (intensity : Rat) (options : FacialFilterOptions) : Surface :=
  let bb := detection.boundingBox
  let blurRadius := options.blurRadius.getD 3 * intensity
  canvas.mapRegion
    (inEllipse (bb.x + bb.width / 2) (bb.y + bb.height / 2) (bb.width / 2) (bb.height / 2))
    (fun p => Pix.blurOf blurRadius p)

/-- `enhanceEyeRegion`: brightness/contrast filter inside a radius-30 circular
clip around the eye center. -/
def enhanceEyeRegion (canvas : Surface) (eyeCenter : Rat × Rat)
    (brightness contrast : Rat) : Surface :=
  let eyeSize : Rat := 30
  canvas.mapRegion (inCircle eyeCenter.1 eyeCenter.2 eyeSize)
    (fun p => Pix.filtered (CssFilter.brightnessContrast brightness contrast) p)

/-- `applyEyeEnhancement`: requires at least 133 landmarks, then enhances the
regions around landmarks 33 and 133 when both are present. -/
def applyEyeEnhancement (canvas : Surface) (detection : JeelizFaceDetection)
    (intensity : Rat) (options : FacialFilterOptions) : Surface :=
  if detection.landmarks.length < 133 then canvas
  else
    let brightness := options.brightness.getD (12 / 10) * intensity
    let contrast := options.contrast.getD (11 / 10) * intensity
    match detection.landmarks.get? 33, detection.landmarks.get? 133 with
    | Option.some leftEye, Option.some rightEye =>
        enhanceEyeRegion (enhanceEyeRegion canvas leftEye brightness contrast)
          rightEye brightness contrast
    | _, _ => canvas

/-- `applyLipEnhancement`: requires at least 14 landmarks, then fills a tinted
ellipse between landmarks 13 and 14 at alpha `intensity * 0.3`. -/
def applyLipEnhancement (canvas : Surface) (detection : JeelizFaceDetection)
    (intensity : Rat) (options : FacialFilterOptions) : Surface :=
  if detection.landmarks.length < 14 then canvas
  else
    let lipColor := options.color.getD "#ff6b9d"
    match detection.landmarks.get? 13, detection.landmarks.get? 14 with
    | Option.some mouthLeft, Option.some mouthRight =>
        let centerX := (mouthLeft.1 + mouthRight.1) / 2
        let centerY := (mouthLeft.2 + mouthRight.2) / 2
        let lipWidth := |mouthRight.1 - mouthLeft.1|
        let lipHeight := lipWidth * (3 / 10)
        canvas.mapRegion (inEllipse centerX centerY (lipWidth / 2) lipHeight)
          (fun p => Pix.tint lipColor (intensity * (3 / 10)) p)
    | _, _ => canvas

/-- `applyFaceContouring`: two black elliptical shadows left and right of the
bounding-box center at alpha `intensity * 0.2` (the computed slim factor is
only logged by the source). -/
def applyFaceContouring (canvas : Surface) (detection : JeelizFaceDetection)
    (intensity : Rat) (_options : FacialFilterOptions) : Surface :=
  let bb := detection.boundingBox
  let centerX := bb.x + bb.width / 2
  let centerY := bb.y + bb.height / 2
  let leftShadow := canvas.mapRegion
    (inEllipse (centerX - bb.width * (3 / 10)) centerY (bb.width * (2 / 10)) (bb.height * (4 / 10)))
    (fun p => Pix.tint "#000" (intensity * (2 / 10)) p)
  leftShadow.mapRegion
    (inEllipse (centerX + bb.width * (3 / 10)) centerY (bb.width * (2 / 10)) (bb.height * (4 / 10)))
    (fun p => Pix.tint "#000" (intensity * (2 / 10)) p)

/-- `applyBlush`: requires at least 352 landmarks, then fills radius-25
circles at landmarks 123 and 352 at alpha `(blushOpacity ?? 0.3) * intensity`. -/
def applyBlush (canvas : Surface) (detection : JeelizFaceDetection)
    (intensity : Rat) (options : FacialFilterOptions) : Surface :=
  if detection.landmarks.length < 352 then canvas
  else
    let blushColor := options.blushColor.getD "#ff9999"
    let opacity := options.blushOpacity.getD (3 / 10) * intensity
    match detection.landmarks.get? 123, detection.landmarks.get? 352 with
    | Option.some leftCheek, Option.some rightCheek =>
        let leftDone := canvas.mapRegion (inCircle leftCheek.1 leftCheek.2 25)
          (fun p => Pix.tint blushColor opacity p)
        leftDone.mapRegion (inCircle rightCheek.1 rightCheek.2 25)
          (fun p => Pix.tint blushColor opacity p)
    | _, _ => canvas

/-- `applyBrightening`: brightness filter inside the elliptical clip over the
bounding box, multiplier `1 + intensity * 0.3`. -/
def applyBrightening (canvas : Surface) (detection : JeelizFaceDetection)
    (intensity : Rat) (_options : FacialFilterOptions) : Surface :=
  let bb := detection.boundingBox
  let brightness := 1 + intensity * (3 / 10)
  canvas.mapRegion
    (inEllipse (bb.x + bb.width / 2) (bb.y + bb.height / 2) (bb.width / 2) (bb.height / 2))
    (fun p => Pix.filtered (CssFilter.brightnessOnly brightness) p)

/-- The private `applyBeautyFilter` method: default intensity `?? 0.5`, then
dispatch on the filter kind. -/
def applyBeautyFilter (canvas : Surface) (detection : JeelizFaceDetection)
    (filter : FacialBeautyFilter) : Surface :=
  let intensity := filter.intensity.getD (1 / 2)
  match filter.type with
  | FacialFilterType.skinSmoothing => applySkinSmoothing canvas detection intensity filter.options
  | FacialFilterType.eyeEnhancement => applyEyeEnhancement canvas detection intensity filter.options
  | FacialFilterType.lipEnhancement => applyLipEnhancement canvas detection intensity filter.options
  | FacialFilterType.faceContouring => applyFaceContouring canvas detection intensity filter.options
  | FacialFilterType.blush => applyBlush canvas detection intensity filter.options
  | FacialFilterType.brightening => applyBrightening canvas detection intensity filter.options

/-- The inner loop of `applyBeautyFilters` over the filter list for one
detection: a filter runs unless `enabled === false`. -/
def applyFiltersFold (detection : JeelizFaceDetection)
    (filters : List FacialBeautyFilter) (canvas : Surface) : Surface :=
  filters.foldl
    (fun acc filter =>
      if filter.enabled ≠ Option.some false then applyBeautyFilter acc detection filter else acc)
    canvas

/-- `applyBeautyFilters(canvas, detections, filters)`: throws when the canvas
yields no 2D context (`ctxOk` is that environment outcome), otherwise applies
every enabled filter to every detection with `state === 1`, in list order. -/
def applyBeautyFilters (ctxOk : Bool) (canvas : Surface)
    (detections : List JeelizFaceDetection) (filters : List FacialBeautyFilter) :
    Except String Surface :=
  if !ctxOk then Except.error "No 2D context available on canvas"
  else
    Except.ok (detections.foldl
      (fun acc detection =>
        if detection.state = 1 then applyFiltersFold detection filters acc else acc)
      canvas)

end BeautyFilterRenderer

/-- The landmark-count guard each facial filter kind checks before operating;
kinds without a guard require none. -/
def minLandmarksRequired : FacialFilterType → Nat
  | FacialFilterType.eyeEnhancement => 133
  | FacialFilterType.lipEnhancement => 14
  | FacialFilterType.blush => 352
  | _ => 0

/-! ## Frame compositor (`compositor.ts` and the legacy variant)

The compositor reads only the `width`/`height`/`videoWidth`/`videoHeight`
introspection of its image arguments; the pixel content of the input frame,
the mask and the background image stays symbolic. The segmentation mask
argument is carried to record that its dimensions are never consulted. -/

/-- The introspection the compositor reads off a `CanvasImageSource`:
the `width`/`height` properties and, for video-like sources, the native
`videoWidth`/`videoHeight` (0 when the property is absent or unset). -/
structure ImageSource where
  width : Nat := 0
  height : Nat := 0
  videoWidth : Nat := 0
  videoHeight : Nat := 0
deriving DecidableEq, Repr

/-- The context transform the compositor manipulates: identity, or the
horizontal mirror `translate(width, 0); scale(-1, 1)` over a canvas of the
given width. -/
inductive Ctm
  | idT
  | mirrorT (width : Nat)
deriving DecidableEq, Repr

/-- User-space sample coordinate of device pixel (x, y) under the transform:
mirroring maps pixel column x of a width-w canvas to column w - 1 - x. -/
def Ctm.sample : Ctm → Nat → Nat → Nat × Nat
  | Ctm.idT, x, y => (x, y)
  | Ctm.mirrorT w, x, y => (w - 1 - x, y)

/-- Draw a full-canvas source onto the surface through the transform,
combining each covered device pixel with the existing one. Every draw call in
the source covers the full canvas rectangle, whose mirror image is the same
rectangle, so coverage is exactly the in-bounds pixels. -/
def drawOn (s : Surface) (t : Ctm) (src : Nat → Nat → Pix)
    (comb : Pix → Pix → Pix) : Surface :=
  { s with pix := fun x y =>
      if x < s.width ∧ y < s.height then
        comb (src (t.sample x y).1 (t.sample x y).2) (s.pix x y)
      else s.pix x y }

/-- `ctx.clearRect(0, 0, width, height)`. -/
def clearAll (s : Surface) : Surface :=
  { s with pix := fun x y =>
      if x < s.width ∧ y < s.height then Pix.transparent else s.pix x y }

/-- A canvas whose dimensions were just assigned: assigning `canvas.width` or
`canvas.height` resets the surface to transparent. -/
def freshCanvas (w h : Nat) : Surface :=
  ⟨w, h, fun _ _ => Pix.transparent⟩

/-- Observable steps of a compositing call, in execution order. The logging
steps record the `console` calls the source makes on those paths. -/
inductive Ev
  | mirrorSave
  | drawInputFrame
  | drawBlurredFrame (radius : Rat)
  | drawBackgroundImage
  | fillBlack
  | tempDrawFrame
  | tempMaskDestIn
  | debugClearAndDrawTemp
  | facialFiltersApplied (detections filters : Nat)
  | noFacialFiltersLogged
  | globalFilterApplied
  | globalFilterFailedLogged
  | noGlobalFilterLogged
  | overlayTemp
  | mirrorRestore
deriving DecidableEq, Repr

/-- Compositing mode of the canonical compositor. -/
inductive CompositingMode
  | none
  | blur
  | image
deriving DecidableEq, Repr

/-- Debug modes declared by the options interface; only `temp` is acted on. -/
inductive DebugMode
  | video
  | mask
  | temp
deriving DecidableEq, Repr

/-- `CompositingOptions` of the canonical `compositor.ts`. The
`faceDetections`/`beautyFilters` fields exist on the interface but the
functions read them from their own parameters. -/
structure CompositingOptions where
  mode : CompositingMode
  blurRadius : Option Rat := Option.none
  backgroundImage : Option HtmlImage := Option.none
  mirror : Bool := false
  debugMode : Option DebugMode := Option.none
  faceDetections : Option (List JeelizFaceDetection) := Option.none
  beautyFilters : Option (List FacialBeautyFilter) := Option.none
deriving DecidableEq, Repr

/-- `CompositingOptions` of the legacy compositor variant, which instead
threads a single global beauty filter descriptor. -/
structure LegacyCompositingOptions where
  mode : CompositingMode
  blurRadius : Option Rat := Option.none
  backgroundImage : Option HtmlImage := Option.none
  mirror : Bool := false
  debugMode : Option DebugMode := Option.none
  beautyFilter : Option BeautyFilterOptions := Option.none
deriving DecidableEq, Repr

/-- Environment outcomes of the `getContext` calls, the only exception
sources besides caller misuse: the output canvas context, the offscreen temp
canvas context, and the context acquired inside the beauty filter stage. -/
structure CompEnv where
  outputCtxOk : Bool := true
  tempCtxOk : Bool := true
  beautyCtxOk : Bool := true
deriving DecidableEq, Repr

/-- Result of a successful compositing call: the written output surface, the
context transform at return, and the executed steps in order. -/
structure CompResult where
  canvas : Surface
  ctm : Ctm
  events : List Ev

/-- The trailing `if (options.mirror) ctx.restore()`. -/
def mirrorTail (mirror : Bool) : List Ev :=
  if mirror then [Ev.mirrorRestore] else []

/-- The leading `if (options.mirror) { save; translate; scale }`. -/
def mirrorHead (mirror : Bool) : List Ev :=
  if mirror then [Ev.mirrorSave] else []

/-- The transform installed for the draw calls by the mirror branch. -/
def ctmFor (mirror : Bool) (w : Nat) : Ctm :=
  if mirror then Ctm.mirrorT w else Ctm.idT

/-- Step 1 of the blur/image paths: blurred input frame, else the background
image when present, else the opaque black fill. -/
def bgSurface (canvas0 : Surface) (t : Ctm) (mode : CompositingMode)
    (blurRadius : Option Rat) (backgroundImage : Option HtmlImage) : Surface :=
  if mode = CompositingMode.blur then
    drawOn canvas0 t (fun x y => Pix.blurredFrame (blurRadius.getD 10) x y) Pix.over
  else if backgroundImage.isSome then
    drawOn canvas0 t (fun x y => Pix.bgImagePix x y) Pix.over
  else
    drawOn canvas0 t (fun _ _ => Pix.black) (fun s _ => s)

/-- The event recorded for step 1 of the blur/image paths. -/
def bgEvent (mode : CompositingMode) (blurRadius : Option Rat)
    (backgroundImage : Option HtmlImage) : Ev :=
  if mode = CompositingMode.blur then Ev.drawBlurredFrame (blurRadius.getD 10)
  else if backgroundImage.isSome then Ev.drawBackgroundImage
  else Ev.fillBlack

/-- Step 2: the offscreen scratch canvas after drawing the full input frame
and intersecting it with the segmentation mask via destination-in. -/
def tempSurface (w h : Nat) : Surface :=
  drawOn
    (drawOn (freshCanvas w h) Ctm.idT (fun x y => Pix.framePix x y) Pix.over)
    Ctm.idT (fun x y => Pix.maskPix x y) Pix.destIn

/-- `compositeFrame` (canonical variant of `compositor.ts`): validates the
input frame dimensions (`width || videoWidth || 0`), throws on a missing
output context, resizes the output to `width || outputCanvas.width`, applies
the optional mirror transform, draws the background (with an early return in
`none` mode), builds the masked scratch canvas and overlays it. The mask
argument is never introspected. -/
def compositeFrame (env : CompEnv) (inputImage : ImageSource)
    (_segmentationMask : ImageSource) (outputCanvas : Surface)
    (options : CompositingOptions) : Except String CompResult :=
  let inputWidth := jsOrNat inputImage.width inputImage.videoWidth
  let inputHeight := jsOrNat inputImage.height inputImage.videoHeight
  if inputWidth = 0 ∨ inputHeight = 0 then
    Except.ok ⟨outputCanvas, Ctm.idT, []⟩
  else if !env.outputCtxOk then
    Except.error "No 2D context on output canvas"
  else
    let w := jsOrNat inputImage.width outputCanvas.width
    let h := jsOrNat inputImage.height outputCanvas.height
    let canvas0 := freshCanvas w h
    let t := ctmFor options.mirror w
    if options.mode = CompositingMode.none then
      let c1 := drawOn canvas0 t (fun x y => Pix.framePix x y) Pix.over
      Except.ok ⟨c1, Ctm.idT,
        mirrorHead options.mirror ++ [Ev.drawInputFrame] ++ mirrorTail options.mirror⟩
    else
      let bg := bgSurface canvas0 t options.mode options.blurRadius options.backgroundImage
      let bgEv := bgEvent options.mode options.blurRadius options.backgroundImage
      if !env.tempCtxOk then Except.error "No 2D context on temp canvas"
      else
        let temp := tempSurface w h
        if options.debugMode = Option.some DebugMode.temp then
          let cdbg := drawOn (clearAll bg) t (fun x y => temp.pix x y) Pix.over
          Except.ok ⟨cdbg, Ctm.idT,
            mirrorHead options.mirror ++
              [bgEv, Ev.tempDrawFrame, Ev.tempMaskDestIn, Ev.debugClearAndDrawTemp] ++
              mirrorTail options.mirror⟩
        else
          let final := drawOn bg t (fun x y => temp.pix x y) Pix.over
          Except.ok ⟨final, Ctm.idT,
            mirrorHead options.mirror ++
              [bgEv, Ev.tempDrawFrame, Ev.tempMaskDestIn, Ev.overlayTemp] ++
              mirrorTail options.mirror⟩

/-- `compositeFrameWithBeautyFilters`: identical validation, resize, mirror
and background handling (mode `none` draws the frame and falls through
instead of returning early), then the facial filter pass runs on the scratch
canvas when `faceDetections && beautyFilters && beautyFilters.length > 0` —
with no try/catch, so a throwing filter stage propagates — and finally the
scratch canvas is drawn onto the background. -/
def compositeFrameWithBeautyFilters (env : CompEnv) (inputImage : ImageSource)
    (_segmentationMask : ImageSource)
    (faceDetections : Option (List JeelizFaceDetection))
    (beautyFilters : Option (List FacialBeautyFilter))
    (outputCanvas : Surface) (options : CompositingOptions) :
    Except String CompResult :=
  let inputWidth := jsOrNat inputImage.width inputImage.videoWidth
  let inputHeight := jsOrNat inputImage.height inputImage.videoHeight
  if inputWidth = 0 ∨ inputHeight = 0 then
    Except.ok ⟨outputCanvas, Ctm.idT, []⟩
  else if !env.outputCtxOk then
    Except.error "No 2D context on output canvas"
  else
    let w := jsOrNat inputImage.width outputCanvas.width
    let h := jsOrNat inputImage.height outputCanvas.height
    let canvas0 := freshCanvas w h
    let t := ctmFor options.mirror w
    let bg :=
      if options.mode = CompositingMode.none then
        drawOn canvas0 t (fun x y => Pix.framePix x y) Pix.over
      else bgSurface canvas0 t options.mode options.blurRadius options.backgroundImage
    let bgEv :=
      if options.mode = CompositingMode.none then Ev.drawInputFrame
      else bgEvent options.mode options.blurRadius options.backgroundImage
    if !env.tempCtxOk then Except.error "No 2D context on temp canvas"
    else
      let temp := tempSurface w h
      if faceDetections.isSome ∧ 0 < (beautyFilters.getD []).length then
        match BeautyFilterRenderer.applyBeautyFilters env.beautyCtxOk temp
            (faceDetections.getD []) (beautyFilters.getD []) with
        | Except.error e => Except.error e
        | Except.ok tempFiltered =>
            let final := drawOn bg t (fun x y => tempFiltered.pix x y) Pix.over
            Except.ok ⟨final, Ctm.idT,
              mirrorHead options.mirror ++
                [bgEv, Ev.tempDrawFrame, Ev.tempMaskDestIn,
                 Ev.facialFiltersApplied (faceDetections.getD []).length
                   (beautyFilters.getD []).length,
                 Ev.overlayTemp] ++
                mirrorTail options.mirror⟩
      else
        let final := drawOn bg t (fun x y => temp.pix x y) Pix.over
        Except.ok ⟨final, Ctm.idT,
          mirrorHead options.mirror ++
            [bgEv, Ev.tempDrawFrame, Ev.tempMaskDestIn, Ev.noFacialFiltersLogged,
             Ev.overlayTemp] ++
            mirrorTail options.mirror⟩

/-- The legacy beauty filter step: `applyBeautyFilter(outputCanvas, { type,
intensity: intensity || 0.5 })` inside try/catch — a failure is logged and
swallowed, leaving the canvas as already composited. -/
def legacyBeautyStep (env : CompEnv) (canvas : Surface)
    (beautyFilter : Option BeautyFilterOptions) : Surface × Ev :=
  match beautyFilter with
  | Option.some f =>
      if f.type ≠ GlobalBeautyType.none then
        match applyBeautyFilter env.beautyCtxOk canvas
            { type := f.type, intensity := Option.some (jsOrRat f.intensity (1 / 2)) } with
        | Except.ok filteredCanvas => (filteredCanvas, Ev.globalFilterApplied)
        | Except.error _ => (canvas, Ev.globalFilterFailedLogged)
      else (canvas, Ev.noGlobalFilterLogged)
  | Option.none => (canvas, Ev.noGlobalFilterLogged)

/-- The legacy `compositeFrame` variant (the file that threads a global
`beautyFilter` option): no input validation, resize, mirror, background with
an early return in `none` mode (after the filter step), masked scratch
overlay, then the guarded beauty filter step, then restore. -/
def compositeFrameLegacy (env : CompEnv) (inputImage : ImageSource)
    (_segmentationMask : ImageSource) (outputCanvas : Surface)
    (options : LegacyCompositingOptions) : Except String CompResult :=
  if !env.outputCtxOk then
    Except.error "No 2D context on output canvas"
  else
    let w := jsOrNat inputImage.width outputCanvas.width
    let h := jsOrNat inputImage.height outputCanvas.height
    let canvas0 := freshCanvas w h
    let t := ctmFor options.mirror w
    if options.mode = CompositingMode.none then
      let c1 := drawOn canvas0 t (fun x y => Pix.framePix x y) Pix.over
      let st := legacyBeautyStep env c1 options.beautyFilter
      Except.ok ⟨st.1, Ctm.idT,
        mirrorHead options.mirror ++ [Ev.drawInputFrame, st.2] ++ mirrorTail options.mirror⟩
    else
      let bg := bgSurface canvas0 t options.mode options.blurRadius options.backgroundImage
      let bgEv := bgEvent options.mode options.blurRadius options.backgroundImage
      if !env.tempCtxOk then Except.error "No 2D context on temp canvas"
      else
        let temp := tempSurface w h
        if options.debugMode = Option.some DebugMode.temp then
          let cdbg := drawOn (clearAll bg) t (fun x y => temp.pix x y) Pix.over
          Except.ok ⟨cdbg, Ctm.idT,
            mirrorHead options.mirror ++
              [bgEv, Ev.tempDrawFrame, Ev.tempMaskDestIn, Ev.debugClearAndDrawTemp] ++
              mirrorTail options.mirror⟩
        else
          let c1 := drawOn bg t (fun x y => temp.pix x y) Pix.over
          let st := legacyBeautyStep env c1 options.beautyFilter
          Except.ok ⟨st.1, Ctm.idT,
            mirrorHead options.mirror ++
              [bgEv, Ev.tempDrawFrame, Ev.tempMaskDestIn, Ev.overlayTemp, st.2] ++
              mirrorTail options.mirror⟩

/-! ## Basic lemmas about the surface operations -/

@[simp]
theorem drawOn_width (s : Surface) (t : Ctm) (src : Nat → Nat → Pix)
    (comb : Pix → Pix → Pix) : (drawOn s t src comb).width = s.width := rfl

@[simp]
theorem drawOn_height (s : Surface) (t : Ctm) (src : Nat → Nat → Pix)
    (comb : Pix → Pix → Pix) : (drawOn s t src comb).height = s.height := rfl

@[simp]
theorem clearAll_width (s : Surface) : (clearAll s).width = s.width := rfl

@[simp]
theorem clearAll_height (s : Surface) : (clearAll s).height = s.height := rfl

@[simp]
theorem freshCanvas_width (w h : Nat) : (freshCanvas w h).width = w := rfl

@[simp]
theorem freshCanvas_height (w h : Nat) : (freshCanvas w h).height = h := rfl

@[simp]
theorem bgSurface_width (canvas0 : Surface) (t : Ctm) (mode : CompositingMode)
    (br : Option Rat) (bi : Option HtmlImage) :
    (bgSurface canvas0 t mode br bi).width = canvas0.width := by
  unfold bgSurface
  split_ifs <;> rfl

@[simp]
theorem bgSurface_height (canvas0 : Surface) (t : Ctm) (mode : CompositingMode)
    (br : Option Rat) (bi : Option HtmlImage) :
    (bgSurface canvas0 t mode br bi).height = canvas0.height := by
  unfold bgSurface
  split_ifs <;> rfl

theorem drawOn_pix (s : Surface) (t : Ctm) (src : Nat → Nat → Pix)
    (comb : Pix → Pix → Pix) (x y : Nat) (hx : x < s.width) (hy : y < s.height) :
    (drawOn s t src comb).pix x y =
      comb (src (t.sample x y).1 (t.sample x y).2) (s.pix x y) := by
  simp [drawOn, hx, hy]

theorem clearAll_pix (s : Surface) (x y : Nat) (hx : x < s.width) (hy : y < s.height) :
    (clearAll s).pix x y = Pix.transparent := by
  simp [clearAll, hx, hy]

/-! ## Claim C5 -/

/-- C5: `preloadBackgrounds` always resolves with exactly one result per
input spec, in input order; a none/blur entry is immediately ready, an image
entry whose load succeeds is ready with the drawable attached, an image entry
whose load fails is not ready and carries the error; every entry is a
function of its own spec alone, so siblings are unaffected by a failure. -/
theorem preloadBackgrounds_batch (loader : String → Except String HtmlImage)
    (options : List BackgroundOption) :
    (preloadBackgrounds loader options).length = options.length ∧
    (∀ i : Nat, (preloadBackgrounds loader options).get? i =
      (options.get? i).map (preloadOne loader)) ∧
    (∀ option : BackgroundOption,
      option.type = BackgroundType.none ∨ option.type = BackgroundType.blur →
      preloadOne loader option = { option := option, isReady := true }) ∧
    (∀ (option : BackgroundOption) (img : HtmlImage),
      option.type = BackgroundType.image → truthyStr option.src = true →
      loader (option.src.getD "") = Except.ok img →
      preloadOne loader option =
        { option := option, image := Option.some img, isReady := true }) ∧
    (∀ (option : BackgroundOption) (err : String),
      option.type = BackgroundType.image → truthyStr option.src = true →
      loader (option.src.getD "") = Except.error err →
      preloadOne loader option =
        { option := option, isReady := false, error := Option.some err }) := by
  refine ⟨List.length_map _ _, fun i => List.get?_map _ _ _, ?_, ?_, ?_⟩
  · rintro option (h | h) <;> simp [preloadOne, h]
  · intro option img htype hsrc hload
    simp [preloadOne, loadImage, htype, hsrc, hload]
  · intro option err htype hsrc hload
    simp [preloadOne, loadImage, htype, hsrc, hload]

/-- Concrete loader: every URL loads except "bad.jpg". -/
def testLoader : String → Except String HtmlImage := fun s =>
  if s = "bad.jpg" then Except.error "Failed to load image: bad.jpg"
  else Except.ok ⟨s⟩

/-- A blur spec needing no preloading. -/
def blurOption : BackgroundOption := { label := "Blur", type := BackgroundType.blur }

/-- An image spec whose load succeeds. -/
def goodOption : BackgroundOption :=
  { label := "Office", type := BackgroundType.image, src := Option.some "office.jpg" }

/-- An image spec whose load fails. -/
def badOption : BackgroundOption :=
  { label := "Bad", type := BackgroundType.image, src := Option.some "bad.jpg" }

/-- Witness for C5 on a concrete three-entry batch with one failing image. -/
theorem preloadBackgrounds_batch_witness :
    (preloadBackgrounds testLoader [blurOption, goodOption, badOption]).length = 3 ∧
    preloadOne testLoader blurOption = { option := blurOption, isReady := true } ∧
    preloadOne testLoader goodOption =
      { option := goodOption, image := Option.some ⟨"office.jpg"⟩, isReady := true } ∧
    preloadOne testLoader badOption =
      { option := badOption, isReady := false,
        error := Option.some "Failed to load image: bad.jpg" } := by
  obtain ⟨h1, _, h3, h4, h5⟩ :=
    preloadBackgrounds_batch testLoader [blurOption, goodOption, badOption]
  exact ⟨h1.trans rfl,
    h3 blurOption (Or.inr rfl),
    h4 goodOption ⟨"office.jpg"⟩ rfl (by decide) rfl,
    h5 badOption "Failed to load image: bad.jpg" rfl (by decide) rfl⟩

/-! ## Claim C10 -/

/-- C10: an image spec whose src is absent or empty resolves immediately with
ready = true, no drawable and no error — treated like a none/blur entry, not
like a load failure. -/
theorem preloadBackgrounds_imageEmptySrc (loader : String → Except String HtmlImage)
    (options : List BackgroundOption) (i : Nat) (option : BackgroundOption)
    (hget : options.get? i = Option.some option)
    (htype : option.type = BackgroundType.image)
    (hsrc : option.src = Option.none ∨ option.src = Option.some "") :
    (preloadBackgrounds loader options).get? i =
      Option.some { option := option, isReady := true } := by
  have hfalse : truthyStr option.src = false := by
    rcases hsrc with h | h <;> simp [truthyStr, h]
  rw [preloadBackgrounds, List.get?_map, hget]
  simp [preloadOne, hfalse]

/-- An image spec with an empty src string. -/
def emptySrcOption : BackgroundOption :=
  { label := "Empty", type := BackgroundType.image, src := Option.some "" }

/-- Witness for C10 at a concrete singleton batch. -/
theorem preloadBackgrounds_imageEmptySrc_witness :
    (preloadBackgrounds testLoader [emptySrcOption]).get? 0 =
      Option.some { option := emptySrcOption, isReady := true } :=
  preloadBackgrounds_imageEmptySrc testLoader [emptySrcOption] 0 emptySrcOption
    rfl rfl (Or.inr rfl)

/-! ## Claim C6 -/

/-- C6: a global beauty descriptor of kind none, or with intensity at most 0,
leaves the surface untouched: the guard returns before any context use or
drawing, in every environment. -/
theorem applyBeautyFilter_noop (ctxOk : Bool) (canvas : Surface)
    (options : BeautyFilterOptions)
    (h : options.type = GlobalBeautyType.none ∨ options.intensity.getD 1 ≤ 0) :
    applyBeautyFilter ctxOk canvas options = Except.ok canvas := by
  have hcond : options.type = GlobalBeautyType.none
      ∨ intensityFalsy options.intensity = true
      ∨ options.intensity.getD 0 ≤ 0 := by
    rcases h with h | h
    · exact Or.inl h
    · cases hq : options.intensity with
      | none => rw [hq, Option.getD_none] at h; norm_num at h
      | some q =>
          rw [hq, Option.getD_some] at h
          exact Or.inr (Or.inr (by simpa using h))
  simp only [applyBeautyFilter]
  rw [if_pos hcond]

/-- A concrete 2x2 surface holding raw frame pixels. -/
def testSurface : Surface := ⟨2, 2, fun x y => Pix.framePix x y⟩

/-- Witness for C6 at a skin smoothing descriptor with intensity 0. -/
theorem applyBeautyFilter_noop_witness :
    applyBeautyFilter true testSurface
        { type := GlobalBeautyType.skinSmoothing, intensity := Option.some 0 } =
      Except.ok testSurface :=
  applyBeautyFilter_noop true testSurface _ (Or.inr (by simp))

/-! ## Claim C7 -/

/-- A facial filter whose landmark guard fails leaves the surface unchanged
(the kinds without a guard make the hypothesis unsatisfiable). -/
theorem applyFacialFilter_short (canvas : Surface) (detection : JeelizFaceDetection)
    (filter : FacialBeautyFilter)
    (hshort : detection.landmarks.length < minLandmarksRequired filter.type) :
    BeautyFilterRenderer.applyBeautyFilter canvas detection filter = canvas := by
  obtain ⟨fid, ftype, fint, fen, fopts⟩ := filter
  cases ftype with
  | skinSmoothing => exact absurd hshort (Nat.not_lt_zero _)
  | faceContouring => exact absurd hshort (Nat.not_lt_zero _)
  | brightening => exact absurd hshort (Nat.not_lt_zero _)
  | eyeEnhancement =>
      have hs : detection.landmarks.length < 133 := hshort
      show BeautyFilterRenderer.applyEyeEnhancement canvas detection _ _ = canvas
      simp only [BeautyFilterRenderer.applyEyeEnhancement]
      rw [if_pos hs]
  | lipEnhancement =>
      have hs : detection.landmarks.length < 14 := hshort
      show BeautyFilterRenderer.applyLipEnhancement canvas detection _ _ = canvas
      simp only [BeautyFilterRenderer.applyLipEnhancement]
      rw [if_pos hs]
  | blush =>
      have hs : detection.landmarks.length < 352 := hshort
      show BeautyFilterRenderer.applyBlush canvas detection _ _ = canvas
      simp only [BeautyFilterRenderer.applyBlush]
      rw [if_pos hs]

/-- The filter loop over a detection that every listed filter skips leaves
the surface unchanged. -/
theorem filtersFold_short (detection : JeelizFaceDetection)
    (filters : List FacialBeautyFilter) (canvas : Surface)
    (h : ∀ g ∈ filters, detection.landmarks.length < minLandmarksRequired g.type) :
    BeautyFilterRenderer.applyFiltersFold detection filters canvas = canvas := by
  induction filters with
  | nil => rfl
  | cons f fs ih =>
      have hf : detection.landmarks.length < minLandmarksRequired f.type :=
        h f (by simp)
      have hstep : (if f.enabled ≠ Option.some false then
          BeautyFilterRenderer.applyBeautyFilter canvas detection f else canvas) = canvas := by
        split
        · exact applyFacialFilter_short canvas detection f hf
        · rfl
      simp only [BeautyFilterRenderer.applyFiltersFold, List.foldl_cons] at *
      rw [hstep]
      exact ih (fun g hg => h g (by simp [hg]))

/-- C7: a detection whose landmark list is shorter than the minimum the
filter kind requires is silently skipped — the surface is unchanged and no
exception occurs — and the remaining detections in the same
applyBeautyFilters call still process exactly as if the short detection were
absent. -/
theorem facialFilters_shortLandmarks_skip (canvas : Surface)
    (detection : JeelizFaceDetection) (filter : FacialBeautyFilter)
    (hshort : detection.landmarks.length < minLandmarksRequired filter.type) :
    BeautyFilterRenderer.applyBeautyFilter canvas detection filter = canvas ∧
    ∀ (rest : List JeelizFaceDetection) (filters : List FacialBeautyFilter),
      (∀ g ∈ filters, detection.landmarks.length < minLandmarksRequired g.type) →
      BeautyFilterRenderer.applyBeautyFilters true canvas (detection :: rest) filters =
        BeautyFilterRenderer.applyBeautyFilters true canvas rest filters := by
  refine ⟨applyFacialFilter_short canvas detection filter hshort, ?_⟩
  intro rest filters hall
  have hstep : (if detection.state = 1 then
      BeautyFilterRenderer.applyFiltersFold detection filters canvas else canvas) = canvas := by
    split
    · exact filtersFold_short detection filters canvas hall
    · rfl
  simp only [BeautyFilterRenderer.applyBeautyFilters, Bool.not_true, Bool.false_eq_true,
    if_false, List.foldl_cons]
  rw [hstep]

/-- A detected face carrying a single landmark. -/
def shortDetection : JeelizFaceDetection :=
  { state := 1, landmarks := [(10, 10)], boundingBox := ⟨0, 0, 50, 50⟩ }

/-- An eye enhancement filter (requires 133 landmarks). -/
def eyeFilter : FacialBeautyFilter := { id := "eye1", type := FacialFilterType.eyeEnhancement }

/-- Witness for C7: a one-landmark detection skips eye enhancement and drops
out of the batch. -/
theorem facialFilters_shortLandmarks_skip_witness :
    BeautyFilterRenderer.applyBeautyFilter testSurface shortDetection eyeFilter = testSurface ∧
    BeautyFilterRenderer.applyBeautyFilters true testSurface [shortDetection] [eyeFilter] =
      BeautyFilterRenderer.applyBeautyFilters true testSurface [] [eyeFilter] := by
  obtain ⟨h1, h2⟩ :=
    facialFilters_shortLandmarks_skip testSurface shortDetection eyeFilter (by decide)
  exact ⟨h1, h2 [] [eyeFilter] (by decide)⟩

/-! ## Claim C2 -/

/-- C2 (amended): a zero-dimension INPUT FRAME (both the width/height
properties and the native video dimensions zero on an axis) makes both
compositing calls return without touching the output surface and without
throwing, in every environment and for every option set. The mask dimensions
are never validated; see the counterexample. -/
theorem compositeFrame_zeroFrame_noop (env : CompEnv) (inputImage mask : ImageSource)
    (outputCanvas : Surface) (options : CompositingOptions)
    (h : jsOrNat inputImage.width inputImage.videoWidth = 0 ∨
         jsOrNat inputImage.height inputImage.videoHeight = 0) :
    compositeFrame env inputImage mask outputCanvas options =
      Except.ok ⟨outputCanvas, Ctm.idT, []⟩ ∧
    ∀ (fd : Option (List JeelizFaceDetection)) (bf : Option (List FacialBeautyFilter)),
      compositeFrameWithBeautyFilters env inputImage mask fd bf outputCanvas options =
        Except.ok ⟨outputCanvas, Ctm.idT, []⟩ := by
  constructor
  · simp only [compositeFrame]
    rw [if_pos h]
  · intro fd bf
    simp only [compositeFrameWithBeautyFilters]
    rw [if_pos h]

/-- A source with every dimension property zero. -/
def zeroFrame : ImageSource := {}

/-- A 2x2 mask. -/
def smallMask : ImageSource := { width := 2, height := 2 }

/-- A 5x5 output surface holding stale prior content. -/
def priorCanvas : Surface := ⟨5, 5, fun _ _ => Pix.uninit⟩

/-- Blur-mode options. -/
def blurOptions : CompositingOptions := { mode := CompositingMode.blur }

/-- Witness for C2 (amended) at a concrete zero-size frame. -/
theorem compositeFrame_zeroFrame_noop_witness :
    compositeFrame {} zeroFrame smallMask priorCanvas blurOptions =
      Except.ok ⟨priorCanvas, Ctm.idT, []⟩ ∧
    compositeFrameWithBeautyFilters {} zeroFrame smallMask Option.none Option.none
        priorCanvas blurOptions =
      Except.ok ⟨priorCanvas, Ctm.idT, []⟩ := by
  obtain ⟨h1, h2⟩ :=
    compositeFrame_zeroFrame_noop {} zeroFrame smallMask priorCanvas blurOptions
      (Or.inl rfl)
  exact ⟨h1, h2 Option.none Option.none⟩

/-- A 2x2 input frame. -/
def smallFrame : ImageSource := { width := 2, height := 2 }

/-- A mask whose every dimension is zero. -/
def zeroMask : ImageSource := {}

/-- C2 counterexample: with a 2x2 frame and a 0x0 segmentation mask the
canonical compositeFrame does NOT leave the output unmodified — the source
validates only the input frame, so the previously 5x5 output surface is
resized to 2x2 and redrawn. -/
theorem compositeFrame_zeroMask_modifies :
    (compositeFrame {} smallFrame zeroMask priorCanvas blurOptions).map
        (fun r => r.canvas.width) = Except.ok 2 ∧
    priorCanvas.width = 5 :=
  ⟨rfl, rfl⟩

/-! ## Claim C3 -/

/-- C3 (amended): whenever the validated input dimensions are nonzero, the
output surface is resized to the width/height PROPERTIES of the input when
those are nonzero and otherwise keeps its prior dimensions. The native
videoWidth/videoHeight are consulted only by the zero-size validation, never
by the resize, so a video-like source exposing only native dimensions leaves
the output size unchanged. -/
theorem compositeFrame_resize (env : CompEnv) (inputImage mask : ImageSource)
    (outputCanvas : Surface) (options : CompositingOptions)
    (hw : jsOrNat inputImage.width inputImage.videoWidth ≠ 0)
    (hh : jsOrNat inputImage.height inputImage.videoHeight ≠ 0)
    (hout : env.outputCtxOk = true) (htemp : env.tempCtxOk = true) :
    (compositeFrame env inputImage mask outputCanvas options).map
        (fun r => (r.canvas.width, r.canvas.height)) =
      Except.ok (jsOrNat inputImage.width outputCanvas.width,
                 jsOrNat inputImage.height outputCanvas.height) := by
  simp only [compositeFrame]
  rw [if_neg (by push_neg; exact ⟨hw, hh⟩), hout, htemp]
  simp only [Bool.not_true, Bool.false_eq_true, if_false]
  split
  · simp [Except.map]
  · split
    · simp [Except.map]
    · simp [Except.map]

/-- A video-like source exposing only native dimensions. -/
def videoOnlyFrame : ImageSource := { videoWidth := 640, videoHeight := 480 }

/-- A 100x100 output surface. -/
def prior100 : Surface := ⟨100, 100, fun _ _ => Pix.uninit⟩

/-- C3 counterexample: for a video-like source exposing only
videoWidth/videoHeight = 640x480 drawn over a previously 100x100 output, the
call succeeds (validation passes via the native dimensions) but the output
keeps 100x100 instead of adopting 640x480. -/
theorem compositeFrame_resize_ignores_videoDims :
    (compositeFrame {} videoOnlyFrame smallMask prior100 blurOptions).map
        (fun r => (r.canvas.width, r.canvas.height)) = Except.ok (100, 100) ∧
    (100 : Nat) ≠ 640 :=
  ⟨rfl, by decide⟩

/-- Witness for C3 (amended) at a frame whose width/height properties are
set: the output adopts exactly those. -/
theorem compositeFrame_resize_witness :
    (compositeFrame {} smallFrame smallMask prior100 blurOptions).map
        (fun r => (r.canvas.width, r.canvas.height)) = Except.ok (2, 2) :=
  compositeFrame_resize {} smallFrame smallMask prior100 blurOptions
    (by decide) (by decide) rfl rfl

/-! ## A closed form for successful canonical compositeFrame calls -/

/-- The result a canonical compositeFrame call produces once validation and
both getContext calls have succeeded. -/
def compositeFrameOk (inputImage : ImageSource) (outputCanvas : Surface)
    (options : CompositingOptions) : CompResult :=
  let w := jsOrNat inputImage.width outputCanvas.width
  let h := jsOrNat inputImage.height outputCanvas.height
  let t := ctmFor options.mirror w
  if options.mode = CompositingMode.none then
    ⟨drawOn (freshCanvas w h) t (fun x y => Pix.framePix x y) Pix.over, Ctm.idT,
     mirrorHead options.mirror ++ [Ev.drawInputFrame] ++ mirrorTail options.mirror⟩
  else
    let bg := bgSurface (freshCanvas w h) t options.mode options.blurRadius options.backgroundImage
    let bgEv := bgEvent options.mode options.blurRadius options.backgroundImage
    if options.debugMode = Option.some DebugMode.temp then
      ⟨drawOn (clearAll bg) t (fun x y => (tempSurface w h).pix x y) Pix.over, Ctm.idT,
       mirrorHead options.mirror ++
         [bgEv, Ev.tempDrawFrame, Ev.tempMaskDestIn, Ev.debugClearAndDrawTemp] ++
         mirrorTail options.mirror⟩
    else
      ⟨drawOn bg t (fun x y => (tempSurface w h).pix x y) Pix.over, Ctm.idT,
       mirrorHead options.mirror ++
         [bgEv, Ev.tempDrawFrame, Ev.tempMaskDestIn, Ev.overlayTemp] ++
         mirrorTail options.mirror⟩

/-- A canonical compositeFrame call with nonzero validated input dimensions
and working contexts succeeds and computes `compositeFrameOk`. -/
theorem compositeFrame_ok (env : CompEnv) (inputImage mask : ImageSource)
    (outputCanvas : Surface) (options : CompositingOptions)
    (hw : jsOrNat inputImage.width inputImage.videoWidth ≠ 0)
    (hh : jsOrNat inputImage.height inputImage.videoHeight ≠ 0)
    (hout : env.outputCtxOk = true) (htemp : env.tempCtxOk = true) :
    compositeFrame env inputImage mask outputCanvas options =
      Except.ok (compositeFrameOk inputImage outputCanvas options) := by
  simp only [compositeFrame, compositeFrameOk, ctmFor]
  rw [if_neg (by push_neg; exact ⟨hw, hh⟩), hout, htemp]
  simp only [Bool.not_true, Bool.false_eq_true, if_false]
  split_ifs <;> rfl

/-- The context transform is the identity again on every successful return. -/
theorem compositeFrameOk_ctm (inputImage : ImageSource) (outputCanvas : Surface)
    (options : CompositingOptions) :
    (compositeFrameOk inputImage outputCanvas options).ctm = Ctm.idT := by
  simp only [compositeFrameOk]
  split_ifs <;> rfl

/-! ## Claim C8 -/

/-- An image-mode background draw without a loaded image paints every
in-bounds pixel opaque black. -/
theorem bgSurface_pix_black (canvas0 : Surface) (t : Ctm) (br : Option Rat)
    (x y : Nat) (hx : x < canvas0.width) (hy : y < canvas0.height) :
    (bgSurface canvas0 t CompositingMode.image br Option.none).pix x y = Pix.black := by
  unfold bgSurface
  rw [if_neg (by decide), if_neg (by simp)]
  rw [drawOn_pix _ _ _ _ _ _ hx hy]

/-- C8: in image mode with no successfully loaded background image the
compositor fills the entire output surface with opaque black and only then
overlays the masked foreground: the trace runs the black fill before the
overlay, and every in-bounds output pixel is a foreground value composited
over black — no region is left undrawn. -/
theorem compositeFrame_imageFallback_black (env : CompEnv) (inputImage mask : ImageSource)
    (outputCanvas : Surface) (options : CompositingOptions)
    (hmode : options.mode = CompositingMode.image)
    (hbg : options.backgroundImage = Option.none)
    (hdbg : options.debugMode ≠ Option.some DebugMode.temp)
    (hw : jsOrNat inputImage.width inputImage.videoWidth ≠ 0)
    (hh : jsOrNat inputImage.height inputImage.videoHeight ≠ 0)
    (hout : env.outputCtxOk = true) (htemp : env.tempCtxOk = true) :
    ∃ r, compositeFrame env inputImage mask outputCanvas options = Except.ok r ∧
      r.events = mirrorHead options.mirror ++
        [Ev.fillBlack, Ev.tempDrawFrame, Ev.tempMaskDestIn, Ev.overlayTemp] ++
        mirrorTail options.mirror ∧
      ∀ x y, x < r.canvas.width → y < r.canvas.height →
        ∃ fg, r.canvas.pix x y = Pix.over fg Pix.black := by
  have hok := compositeFrame_ok env inputImage mask outputCanvas options hw hh hout htemp
  have hmn : ¬options.mode = CompositingMode.none := by simp [hmode]
  have hcanvas : (compositeFrameOk inputImage outputCanvas options).canvas =
      drawOn
        (bgSurface
          (freshCanvas (jsOrNat inputImage.width outputCanvas.width)
            (jsOrNat inputImage.height outputCanvas.height))
          (ctmFor options.mirror (jsOrNat inputImage.width outputCanvas.width))
          options.mode options.blurRadius options.backgroundImage)
        (ctmFor options.mirror (jsOrNat inputImage.width outputCanvas.width))
        (fun a b => (tempSurface (jsOrNat inputImage.width outputCanvas.width)
          (jsOrNat inputImage.height outputCanvas.height)).pix a b)
        Pix.over := by
    simp only [compositeFrameOk]
    rw [if_neg hmn, if_neg hdbg]
  refine ⟨_, hok, ?_, ?_⟩
  · simp only [compositeFrameOk]
    rw [if_neg hmn, if_neg hdbg]
    simp [bgEvent, hmode, hbg]
  · intro x y hx hy
    rw [hcanvas] at hx hy ⊢
    simp only [drawOn_width, drawOn_height, bgSurface_width, bgSurface_height,
      freshCanvas_width, freshCanvas_height] at hx hy
    refine ⟨(tempSurface (jsOrNat inputImage.width outputCanvas.width)
      (jsOrNat inputImage.height outputCanvas.height)).pix
      (((ctmFor options.mirror (jsOrNat inputImage.width outputCanvas.width)).sample x y).1)
      (((ctmFor options.mirror (jsOrNat inputImage.width outputCanvas.width)).sample x y).2), ?_⟩
    rw [drawOn_pix _ _ _ _ _ _ (by simpa using hx) (by simpa using hy)]
    rw [hmode, hbg]
    rw [bgSurface_pix_black _ _ _ _ _ (by simpa using hx) (by simpa using hy)]

/-- Image-mode options with no loaded background image. -/
def imageNoBgOptions : CompositingOptions := { mode := CompositingMode.image }

/-- Witness for C8 at a concrete 2x2 frame over a stale 100x100 output. -/
theorem compositeFrame_imageFallback_black_witness :
    ∃ r, compositeFrame {} smallFrame smallMask prior100 imageNoBgOptions = Except.ok r ∧
      r.events = mirrorHead imageNoBgOptions.mirror ++
        [Ev.fillBlack, Ev.tempDrawFrame, Ev.tempMaskDestIn, Ev.overlayTemp] ++
        mirrorTail imageNoBgOptions.mirror ∧
      ∀ x y, x < r.canvas.width → y < r.canvas.height →
        ∃ fg, r.canvas.pix x y = Pix.over fg Pix.black :=
  compositeFrame_imageFallback_black {} smallFrame smallMask prior100 imageNoBgOptions
    rfl rfl (by decide) (by decide) (by decide) rfl rfl

/-! ## Claim C9 -/

/-- Surface s1 is the horizontal flip of s0. -/
def FlipRel (s1 s0 : Surface) : Prop :=
  s1.width = s0.width ∧ s1.height = s0.height ∧
  ∀ x y, x < s1.width → y < s1.height → s1.pix x y = s0.pix (s1.width - 1 - x) y

/-- A fresh canvas is its own flip. -/
theorem flipRel_fresh (w h : Nat) : FlipRel (freshCanvas w h) (freshCanvas w h) :=
  ⟨rfl, rfl, fun _ _ _ _ => rfl⟩

/-- Drawing a full-canvas source through the mirror transform onto a flip of
a surface yields the flip of drawing it through the identity. -/
theorem flipRel_drawOn (s1 s0 : Surface) (w : Nat) (src : Nat → Nat → Pix)
    (comb : Pix → Pix → Pix) (hrel : FlipRel s1 s0) (hwid : s1.width = w) :
    FlipRel (drawOn s1 (Ctm.mirrorT w) src comb) (drawOn s0 Ctm.idT src comb) := by
  subst hwid
  obtain ⟨hW, hH, hpix⟩ := hrel
  refine ⟨by simpa using hW, by simpa using hH, ?_⟩
  intro x y hx hy
  simp only [drawOn_width, drawOn_height] at hx hy ⊢
  have hx0 : s1.width - 1 - x < s0.width := by omega
  have hy0 : y < s0.height := hH ▸ hy
  rw [drawOn_pix _ _ _ _ _ _ hx hy, drawOn_pix _ _ _ _ _ _ hx0 hy0]
  simp only [Ctm.sample]
  rw [hpix x y hx hy]

/-- Clearing preserves the flip relation. -/
theorem flipRel_clearAll (s1 s0 : Surface) (hrel : FlipRel s1 s0) :
    FlipRel (clearAll s1) (clearAll s0) := by
  obtain ⟨hW, hH, hpix⟩ := hrel
  refine ⟨by simpa using hW, by simpa using hH, ?_⟩
  intro x y hx hy
  simp only [clearAll_width, clearAll_height] at hx hy ⊢
  have hx0 : s1.width - 1 - x < s0.width := by omega
  have hy0 : y < s0.height := hH ▸ hy
  rw [clearAll_pix _ _ _ hx hy, clearAll_pix _ _ _ hx0 hy0]

/-- The mirrored background draw is the flip of the unmirrored one. -/
theorem flipRel_bgSurface (w h : Nat) (mode : CompositingMode) (br : Option Rat)
    (bi : Option HtmlImage) :
    FlipRel (bgSurface (freshCanvas w h) (Ctm.mirrorT w) mode br bi)
      (bgSurface (freshCanvas w h) Ctm.idT mode br bi) := by
  unfold bgSurface
  split_ifs <;> exact flipRel_drawOn _ _ _ _ _ (flipRel_fresh w h) rfl

/-- C9: for positive validated input dimensions, the output of compositeFrame
with mirror on is the horizontal flip of the output with mirror off on
otherwise identical inputs — device pixel (x, y) of the mirrored output
equals pixel (width - 1 - x, y) of the unmirrored one — and the context
transform is the identity again when the call returns. -/
theorem compositeFrame_mirror_flip (env : CompEnv) (inputImage mask : ImageSource)
    (outputCanvas : Surface) (options : CompositingOptions)
    (hw : jsOrNat inputImage.width inputImage.videoWidth ≠ 0)
    (hh : jsOrNat inputImage.height inputImage.videoHeight ≠ 0)
    (hout : env.outputCtxOk = true) (htemp : env.tempCtxOk = true) :
    ∃ rm r0,
      compositeFrame env inputImage mask outputCanvas { options with mirror := true } =
        Except.ok rm ∧
      compositeFrame env inputImage mask outputCanvas { options with mirror := false } =
        Except.ok r0 ∧
      rm.canvas.width = r0.canvas.width ∧ rm.canvas.height = r0.canvas.height ∧
      rm.ctm = Ctm.idT ∧
      ∀ x y, x < rm.canvas.width → y < rm.canvas.height →
        rm.canvas.pix x y = r0.canvas.pix (rm.canvas.width - 1 - x) y := by
  obtain ⟨mode, br, bi, mir, dbg, fdo, bfo⟩ := options
  refine ⟨compositeFrameOk inputImage outputCanvas _,
    compositeFrameOk inputImage outputCanvas _,
    compositeFrame_ok env inputImage mask outputCanvas _ hw hh hout htemp,
    compositeFrame_ok env inputImage mask outputCanvas _ hw hh hout htemp, ?_⟩
  have hrel : FlipRel
      (compositeFrameOk inputImage outputCanvas
        { mode := mode, blurRadius := br, backgroundImage := bi, mirror := true,
          debugMode := dbg, faceDetections := fdo, beautyFilters := bfo }).canvas
      (compositeFrameOk inputImage outputCanvas
        { mode := mode, blurRadius := br, backgroundImage := bi, mirror := false,
          debugMode := dbg, faceDetections := fdo, beautyFilters := bfo }).canvas := by
    simp only [compositeFrameOk, ctmFor, Bool.false_eq_true, if_false, if_true]
    split_ifs
    · exact flipRel_drawOn _ _ _ _ _ (flipRel_fresh _ _) rfl
    · exact flipRel_drawOn _ _ _ _ _
        (flipRel_clearAll _ _ (flipRel_bgSurface _ _ _ _ _)) (by simp)
    · exact flipRel_drawOn _ _ _ _ _ (flipRel_bgSurface _ _ _ _ _) (by simp)
  obtain ⟨hW, hH, hpix⟩ := hrel
  exact ⟨hW, hH, compositeFrameOk_ctm _ _ _, hpix⟩

/-- Witness for C9 at a concrete 2x2 frame in blur mode. -/
theorem compositeFrame_mirror_flip_witness :
    ∃ rm r0,
      compositeFrame {} smallFrame smallMask prior100 { blurOptions with mirror := true } =
        Except.ok rm ∧
      compositeFrame {} smallFrame smallMask prior100 { blurOptions with mirror := false } =
        Except.ok r0 ∧
      rm.canvas.width = r0.canvas.width ∧ rm.canvas.height = r0.canvas.height ∧
      rm.ctm = Ctm.idT ∧
      ∀ x y, x < rm.canvas.width → y < rm.canvas.height →
        rm.canvas.pix x y = r0.canvas.pix (rm.canvas.width - 1 - x) y :=
  compositeFrame_mirror_flip {} smallFrame smallMask prior100 blurOptions
    (by decide) (by decide) rfl rfl

/-! ## Claim C1 -/

/-- True when a pixel was produced without any facial-filter drawing
operation: exactly the constructors the background path can produce
(the facial pass only emits blends, css filters, content blurs and tints). -/
def facialFree : Pix → Bool
  | Pix.uninit => true
  | Pix.transparent => true
  | Pix.framePix _ _ => true
  | Pix.maskPix _ _ => true
  | Pix.bgImagePix _ _ => true
  | Pix.black => true
  | Pix.blurredFrame _ _ _ => true
  | Pix.over a b => facialFree a && facialFree b
  | Pix.destIn a b => facialFree a && facialFree b
  | Pix.blend _ _ _ _ => false
  | Pix.filtered _ _ => false
  | Pix.blurOf _ _ => false
  | Pix.tint _ _ _ => false
  | Pix.gradientPix _ _ _ _ => false

/-- Every in-bounds pixel of the drawn background is facial-filter free. -/
theorem bgSurface_pix_facialFree (w h : Nat) (t : Ctm) (mode : CompositingMode)
    (br : Option Rat) (bi : Option HtmlImage) (x y : Nat)
    (hx : x < w) (hy : y < h) :
    facialFree ((bgSurface (freshCanvas w h) t mode br bi).pix x y) = true := by
  unfold bgSurface
  split_ifs
  · rw [drawOn_pix _ _ _ _ _ _ hx hy]; rfl
  · rw [drawOn_pix _ _ _ _ _ _ hx hy]; rfl
  · rw [drawOn_pix _ _ _ _ _ _ hx hy]; rfl

/-- C1: in blur or image mode with positive validated dimensions, the async
compositor performs, in order: the background draw, the scratch build (frame
draw then destination-in mask intersection), the facial filter pass on the
scratch surface, and only then the overlay of the scratch surface — the final
canvas is exactly the filtered scratch composited over the background, and
the background component of every in-bounds pixel is free of facial filter
effects. -/
theorem compositeFrameWithBeautyFilters_order (env : CompEnv)
    (inputImage mask : ImageSource)
    (fd : Option (List JeelizFaceDetection)) (bf : Option (List FacialBeautyFilter))
    (outputCanvas : Surface) (options : CompositingOptions)
    (hmode : options.mode = CompositingMode.blur ∨ options.mode = CompositingMode.image)
    (hwpos : jsOrNat inputImage.width inputImage.videoWidth ≠ 0)
    (hhpos : jsOrNat inputImage.height inputImage.videoHeight ≠ 0)
    (hout : env.outputCtxOk = true) (htemp : env.tempCtxOk = true)
    (hbeauty : env.beautyCtxOk = true)
    (hfd : fd.isSome = true) (hbf : 0 < (bf.getD []).length) :
    ∃ r tempFiltered,
      compositeFrameWithBeautyFilters env inputImage mask fd bf outputCanvas options =
        Except.ok r ∧
      BeautyFilterRenderer.applyBeautyFilters true
          (tempSurface (jsOrNat inputImage.width outputCanvas.width)
            (jsOrNat inputImage.height outputCanvas.height))
          (fd.getD []) (bf.getD []) = Except.ok tempFiltered ∧
      r.canvas = drawOn
          (bgSurface
            (freshCanvas (jsOrNat inputImage.width outputCanvas.width)
              (jsOrNat inputImage.height outputCanvas.height))
            (ctmFor options.mirror (jsOrNat inputImage.width outputCanvas.width))
            options.mode options.blurRadius options.backgroundImage)
          (ctmFor options.mirror (jsOrNat inputImage.width outputCanvas.width))
          (fun a b => tempFiltered.pix a b) Pix.over ∧
      r.events = mirrorHead options.mirror ++
        [bgEvent options.mode options.blurRadius options.backgroundImage,
         Ev.tempDrawFrame, Ev.tempMaskDestIn,
         Ev.facialFiltersApplied (fd.getD []).length (bf.getD []).length,
         Ev.overlayTemp] ++ mirrorTail options.mirror ∧
      ∀ x y, x < r.canvas.width → y < r.canvas.height →
        ∃ fg bgp, r.canvas.pix x y = Pix.over fg bgp ∧ facialFree bgp = true := by
  have hmn : ¬options.mode = CompositingMode.none := by
    rcases hmode with h | h <;> simp [h]
  obtain ⟨tf, happly⟩ : ∃ tf, BeautyFilterRenderer.applyBeautyFilters env.beautyCtxOk
      (tempSurface (jsOrNat inputImage.width outputCanvas.width)
        (jsOrNat inputImage.height outputCanvas.height))
      (fd.getD []) (bf.getD []) = Except.ok tf :=
    ⟨_, by rw [hbeauty]; exact rfl⟩
  have heq : compositeFrameWithBeautyFilters env inputImage mask fd bf outputCanvas options =
      Except.ok ⟨drawOn
          (bgSurface
            (freshCanvas (jsOrNat inputImage.width outputCanvas.width)
              (jsOrNat inputImage.height outputCanvas.height))
            (ctmFor options.mirror (jsOrNat inputImage.width outputCanvas.width))
            options.mode options.blurRadius options.backgroundImage)
          (ctmFor options.mirror (jsOrNat inputImage.width outputCanvas.width))
          (fun a b => tf.pix a b) Pix.over,
        Ctm.idT,
        mirrorHead options.mirror ++
          [bgEvent options.mode options.blurRadius options.backgroundImage,
           Ev.tempDrawFrame, Ev.tempMaskDestIn,
           Ev.facialFiltersApplied (fd.getD []).length (bf.getD []).length,
           Ev.overlayTemp] ++ mirrorTail options.mirror⟩ := by
    simp only [compositeFrameWithBeautyFilters]
    rw [if_neg (by push_neg; exact ⟨hwpos, hhpos⟩), hout, htemp]
    simp only [Bool.not_true, Bool.false_eq_true, if_false]
    rw [if_neg hmn, if_neg hmn, if_pos (And.intro hfd hbf), happly]
  refine ⟨_, tf, heq, hbeauty ▸ happly, rfl, rfl, ?_⟩
  intro x y hx hy
  simp only [drawOn_width, drawOn_height, bgSurface_width, bgSurface_height,
    freshCanvas_width, freshCanvas_height] at hx hy
  refine ⟨tf.pix
      (((ctmFor options.mirror (jsOrNat inputImage.width outputCanvas.width)).sample x y).1)
      (((ctmFor options.mirror (jsOrNat inputImage.width outputCanvas.width)).sample x y).2),
    (bgSurface
      (freshCanvas (jsOrNat inputImage.width outputCanvas.width)
        (jsOrNat inputImage.height outputCanvas.height))
      (ctmFor options.mirror (jsOrNat inputImage.width outputCanvas.width))
      options.mode options.blurRadius options.backgroundImage).pix x y, ?_, ?_⟩
  · rw [drawOn_pix _ _ _ _ _ _ (by simpa using hx) (by simpa using hy)]
  · exact bgSurface_pix_facialFree _ _ _ options.mode options.blurRadius
      options.backgroundImage x y (by simpa using hx) (by simpa using hy)

/-- A detected face with an empty landmark list. -/
def plainDetection : JeelizFaceDetection :=
  { state := 1, landmarks := [], boundingBox := ⟨10, 10, 40, 40⟩ }

/-- A face contouring filter at intensity 0.8. -/
def contourFilter : FacialBeautyFilter :=
  { id := "contour1", type := FacialFilterType.faceContouring,
    intensity := Option.some (8 / 10) }

/-- Witness for C1 at a concrete blur-mode call with one detection and one
facial filter. -/
theorem compositeFrameWithBeautyFilters_order_witness :
    ∃ r tempFiltered,
      compositeFrameWithBeautyFilters {} smallFrame smallMask
          (Option.some [plainDetection]) (Option.some [contourFilter])
          prior100 blurOptions = Except.ok r ∧
      BeautyFilterRenderer.applyBeautyFilters true
          (tempSurface (jsOrNat smallFrame.width prior100.width)
            (jsOrNat smallFrame.height prior100.height))
          ((Option.some [plainDetection]).getD [])
          ((Option.some [contourFilter]).getD []) = Except.ok tempFiltered ∧
      r.canvas = drawOn
          (bgSurface
            (freshCanvas (jsOrNat smallFrame.width prior100.width)
              (jsOrNat smallFrame.height prior100.height))
            (ctmFor blurOptions.mirror (jsOrNat smallFrame.width prior100.width))
            blurOptions.mode blurOptions.blurRadius blurOptions.backgroundImage)
          (ctmFor blurOptions.mirror (jsOrNat smallFrame.width prior100.width))
          (fun a b => tempFiltered.pix a b) Pix.over ∧
      r.events = mirrorHead blurOptions.mirror ++
        [bgEvent blurOptions.mode blurOptions.blurRadius blurOptions.backgroundImage,
         Ev.tempDrawFrame, Ev.tempMaskDestIn,
         Ev.facialFiltersApplied 1 1, Ev.overlayTemp] ++ mirrorTail blurOptions.mirror ∧
      ∀ x y, x < r.canvas.width → y < r.canvas.height →
        ∃ fg bgp, r.canvas.pix x y = Pix.over fg bgp ∧ facialFree bgp = true :=
  compositeFrameWithBeautyFilters_order {} smallFrame smallMask
    (Option.some [plainDetection]) (Option.some [contourFilter]) prior100 blurOptions
    (Or.inl rfl) (by decide) (by decide) rfl rfl rfl rfl (by decide)

/-! ## Claim C4 -/

/-- A lip enhancement facial filter. -/
def lipFilter : FacialBeautyFilter :=
  { id := "lip1", type := FacialFilterType.lipEnhancement }

/-- C4 counterexample: when the facial beauty filter stage throws (its canvas
yields no 2D context), compositeFrameWithBeautyFilters has no try/catch
around the stage, so the call itself rejects with that exception and the
foreground overlay is never drawn — the claim fails for this compositor
call. -/
theorem compositeFrameWithBeautyFilters_filterThrow_aborts :
    compositeFrameWithBeautyFilters { beautyCtxOk := false } smallFrame smallMask
        (Option.some []) (Option.some [lipFilter]) priorCanvas blurOptions =
      Except.error "No 2D context available on canvas" := rfl

/-- C4 (amended): the legacy compositeFrame catches a throwing global beauty
filter stage inside the call, logs it, and still returns the frame with the
foreground overlay already drawn (the overlay precedes the filter stage in
its trace); the async compositeFrameWithBeautyFilters has no such guard, so
a throwing facial filter stage propagates out of the call before the overlay
step. -/
theorem beautyFilterFailure_handling (env : CompEnv) (inputImage mask : ImageSource)
    (outputCanvas : Surface) (options : LegacyCompositingOptions)
    (f : BeautyFilterOptions)
    (hbeauty : env.beautyCtxOk = false) (hout : env.outputCtxOk = true)
    (htemp : env.tempCtxOk = true)
    (hmn : ¬options.mode = CompositingMode.none)
    (hdbg : options.debugMode ≠ Option.some DebugMode.temp)
    (hbf : options.beautyFilter = Option.some f)
    (hft : f.type ≠ GlobalBeautyType.none)
    (hfi : 0 < jsOrRat f.intensity (1 / 2)) :
    (∃ r, compositeFrameLegacy env inputImage mask outputCanvas options = Except.ok r ∧
       r.events = mirrorHead options.mirror ++
         [bgEvent options.mode options.blurRadius options.backgroundImage,
          Ev.tempDrawFrame, Ev.tempMaskDestIn, Ev.overlayTemp,
          Ev.globalFilterFailedLogged] ++ mirrorTail options.mirror) ∧
    ∀ (options2 : CompositingOptions) (fd : Option (List JeelizFaceDetection))
      (bf : Option (List FacialBeautyFilter)),
      jsOrNat inputImage.width inputImage.videoWidth ≠ 0 →
      jsOrNat inputImage.height inputImage.videoHeight ≠ 0 →
      fd.isSome = true → 0 < (bf.getD []).length →
      compositeFrameWithBeautyFilters env inputImage mask fd bf outputCanvas options2 =
        Except.error "No 2D context available on canvas" := by
  have hq0 : jsOrRat f.intensity (1 / 2) ≠ 0 := ne_of_gt hfi
  have hstep : ∀ c : Surface,
      legacyBeautyStep env c options.beautyFilter = (c, Ev.globalFilterFailedLogged) := by
    intro c
    rw [hbf]
    simp only [legacyBeautyStep]
    rw [if_pos hft]
    have herr : applyBeautyFilter env.beautyCtxOk c
        { type := f.type, intensity := Option.some (jsOrRat f.intensity (1 / 2)) } =
        Except.error "No 2D context available on canvas" := by
      have hc : ¬(f.type = GlobalBeautyType.none ∨
          intensityFalsy (Option.some (jsOrRat f.intensity (1 / 2))) = true ∨
          (Option.some (jsOrRat f.intensity (1 / 2))).getD 0 ≤ 0) := by
        rintro (h | h | h)
        · exact hft h
        · exact hq0 (by simpa [intensityFalsy] using h)
        · rw [Option.getD_some] at h
          exact absurd hfi (not_lt.mpr h)
      simp only [applyBeautyFilter]
      rw [if_neg hc, hbeauty]
      rfl
    rw [herr]
  constructor
  · have heq : compositeFrameLegacy env inputImage mask outputCanvas options =
        Except.ok ⟨drawOn
            (bgSurface
              (freshCanvas (jsOrNat inputImage.width outputCanvas.width)
                (jsOrNat inputImage.height outputCanvas.height))
              (ctmFor options.mirror (jsOrNat inputImage.width outputCanvas.width))
              options.mode options.blurRadius options.backgroundImage)
            (ctmFor options.mirror (jsOrNat inputImage.width outputCanvas.width))
            (fun a b => (tempSurface (jsOrNat inputImage.width outputCanvas.width)
              (jsOrNat inputImage.height outputCanvas.height)).pix a b)
            Pix.over,
          Ctm.idT,
          mirrorHead options.mirror ++
            [bgEvent options.mode options.blurRadius options.backgroundImage,
             Ev.tempDrawFrame, Ev.tempMaskDestIn, Ev.overlayTemp,
             Ev.globalFilterFailedLogged] ++ mirrorTail options.mirror⟩ := by
      simp only [compositeFrameLegacy]
      rw [hout, htemp]
      simp only [Bool.not_true, Bool.false_eq_true, if_false]
      rw [if_neg hmn, if_neg hdbg, hstep]
    exact ⟨_, heq, rfl⟩
  · intro options2 fd bf hw2 hh2 hfd2 hbf2
    have herr2 : BeautyFilterRenderer.applyBeautyFilters env.beautyCtxOk
        (tempSurface (jsOrNat inputImage.width outputCanvas.width)
          (jsOrNat inputImage.height outputCanvas.height))
        (fd.getD []) (bf.getD []) =
        Except.error "No 2D context available on canvas" := by
      rw [hbeauty]
      rfl
    simp only [compositeFrameWithBeautyFilters]
    rw [if_neg (by push_neg; exact ⟨hw2, hh2⟩), hout, htemp]
    simp only [Bool.not_true, Bool.false_eq_true, if_false]
    rw [if_pos (And.intro hfd2 hbf2), herr2]

/-- Legacy blur-mode options carrying a sharpen beauty filter. -/
def legacySharpenOptions : LegacyCompositingOptions :=
  { mode := CompositingMode.blur,
    beautyFilter := Option.some
      { type := GlobalBeautyType.sharpen, intensity := Option.some (1 / 2) } }

/-- Witness for C4 (amended) at concrete inputs: the legacy call succeeds
with the overlay drawn and the failure logged; the async call rejects. -/
theorem beautyFilterFailure_handling_witness :
    (∃ r, compositeFrameLegacy { beautyCtxOk := false } smallFrame smallMask priorCanvas
        legacySharpenOptions = Except.ok r ∧
       r.events = mirrorHead legacySharpenOptions.mirror ++
         [bgEvent legacySharpenOptions.mode legacySharpenOptions.blurRadius
            legacySharpenOptions.backgroundImage,
          Ev.tempDrawFrame, Ev.tempMaskDestIn, Ev.overlayTemp,
          Ev.globalFilterFailedLogged] ++ mirrorTail legacySharpenOptions.mirror) ∧
    compositeFrameWithBeautyFilters { beautyCtxOk := false } smallFrame smallMask
        (Option.some []) (Option.some [lipFilter]) priorCanvas blurOptions =
      Except.error "No 2D context available on canvas" := by
  obtain ⟨h1, h2⟩ := beautyFilterFailure_handling { beautyCtxOk := false }
    smallFrame smallMask priorCanvas legacySharpenOptions
    { type := GlobalBeautyType.sharpen, intensity := Option.some (1 / 2) }
    rfl rfl rfl (by decide) (by decide) rfl (by decide) (by norm_num [jsOrRat])
  exact ⟨h1, h2 blurOptions (Option.some []) (Option.some [lipFilter])
    (by decide) (by decide) rfl (by decide)⟩

end Backdrop
